import Mathlib

/-!
Verification of the document-manager component and the session observer of
the dropship-joyful-journey front end, as a shallow embedding in Lean.

Each backend call site is modelled by passing the remote response in as an
argument; each handler returns the successor component state together with
the emitted notifications (toasts), console errors and the list of remote
calls it performed, so that gating and error-handling behaviour can be
stated as theorems about these traces.
-/

namespace DocumentManager

/-- A row of the documents table, as selected by the component
(src/src/components/documents/DocumentManager.tsx). -/
structure Document where
  id : String
  title : String
  content : String
  team_id : String
  owner_id : String
  updated_at : String
deriving DecidableEq, Repr

/-- A row of the integrations table; the component reads only the fields
used for filtering and rendering. -/
structure Integration where
  id : String
  team_id : String
  integration_type : String
deriving DecidableEq, Repr

/-- A toast notification as produced through the useToast hook: title,
description and the optional variant string. -/
structure Toast where
  title : String
  description : String
  variant : Option String
deriving DecidableEq, Repr

/-- The result shape of a supabase call: a data field and an error field.
Handlers that destructure only the data field are modelled by functions
that read only the data projection. -/
structure InvokeResult (α : Type) where
  data : Option α
  error : Option String
deriving DecidableEq, Repr

/-- The data field returned by the check-subscription remote function. -/
structure SubCheck where
  subscribed : Bool
deriving DecidableEq, Repr

/-- The data field returned by the ai-summarize remote function. -/
structure SummaryData where
  summary : String
deriving DecidableEq, Repr

/-- The user object returned by supabase.auth.getUser; the component reads
only the email field. -/
structure UserView where
  email : Option String
deriving DecidableEq, Repr

/-- The remote calls the component can make, recorded as a trace. -/
inductive RemoteCall where
  | selectDocuments (teamId : String)
  | selectIntegrations (teamId : String)
  | insertDocument (title content teamId ownerId : String)
  | updateDocumentRow (id title content : String)
  | deleteDocumentRow (id : String)
  | getUser
  | selectOwnerPrivileges (email : String)
  | invokeCheckSubscription
  | invokeAiSummarize (content title : String)
deriving DecidableEq, Repr

/-- The local component state held in useState hooks (lines 25 to 33 of
DocumentManager.tsx). -/
structure ManagerState where
  documents : List Document
  integrations : List Integration
  isLoading : Bool
  editingDoc : Option Document
  newDocTitle : String
  newDocContent : String
  isCreateDialogOpen : Bool
  isSummarizing : Option String
deriving DecidableEq, Repr

/-- The observable outcome of one handler run: successor state, emitted
toasts, console error output, and the remote calls performed. -/
structure OpResult where
  state : ManagerState
  toasts : List Toast
  consoleErrors : List String
  calls : List RemoteCall
deriving DecidableEq, Repr

/-- loadDocuments (lines 41 to 62): early return on falsy teamId; on
success the list is replaced; on failure a destructive toast carries the
message; finally clears the loading flag. -/
def loadDocuments (st : ManagerState) (teamId : String)
    (resp : Except String (List Document)) : OpResult :=
  if teamId = "" then ⟨st, [], [], []⟩
  else
    match resp with
    | .ok data =>
        ⟨{ st with documents := data, isLoading := false }, [], [],
          [RemoteCall.selectDocuments teamId]⟩
    | .error e =>
        ⟨{ st with isLoading := false },
          [⟨"Error loading documents", e, some "destructive"⟩], [],
          [RemoteCall.selectDocuments teamId]⟩

/-- loadIntegrations (lines 64 to 78): on failure the error is only
written to the console (line 76); no toast is emitted. -/
def loadIntegrations (st : ManagerState) (teamId : String)
    (resp : Except String (List Integration)) : OpResult :=
  if teamId = "" then ⟨st, [], [], []⟩
  else
    match resp with
    | .ok data =>
        ⟨{ st with integrations := data }, [], [],
          [RemoteCall.selectIntegrations teamId]⟩
    | .error e =>
        ⟨st, [], ["Error loading integrations: " ++ e],
          [RemoteCall.selectIntegrations teamId]⟩

/-- The trim of the title guard on line 81, modelled over the character
list: whitespace dropped from both ends. The guard bang title.trim() is
truthy exactly when this trim is empty. -/
def jsTrim (s : String) : String :=
  ⟨((s.toList.dropWhile Char.isWhitespace).reverse.dropWhile Char.isWhitespace).reverse⟩

/-- createDocument (lines 80 to 112): returns before any network call
when the trimmed title is empty; on success the new record is prepended,
the inputs cleared and the dialog closed; on failure a destructive toast
carries the message and the state is untouched. -/
def createDocument (st : ManagerState) (teamId userId : String)
    (resp : Except String Document) : OpResult :=
  if jsTrim st.newDocTitle = "" then ⟨st, [], [], []⟩
  else
    match resp with
    | .ok data =>
        ⟨{ st with
            documents := data :: st.documents, newDocTitle := "",
            newDocContent := "", isCreateDialogOpen := false },
          [⟨"Document created",
            "Your document has been created successfully.", none⟩], [],
          [RemoteCall.insertDocument st.newDocTitle st.newDocContent teamId userId]⟩
    | .error e =>
        ⟨st, [⟨"Error creating document", e, some "destructive"⟩], [],
          [RemoteCall.insertDocument st.newDocTitle st.newDocContent teamId userId]⟩

/-- updateDocument (lines 114 to 139): on success every list entry whose
id matches is swapped for the updated record and editing mode ends; on
failure a destructive toast carries the message. -/
def updateDocument (st : ManagerState) (doc : Document)
    (resp : Except String Unit) : OpResult :=
  match resp with
  | .ok _ =>
      ⟨{ st with
          documents := st.documents.map (fun d => if d.id = doc.id then doc else d),
          editingDoc := none },
        [⟨"Document updated", "Your document has been saved.", none⟩], [],
        [RemoteCall.updateDocumentRow doc.id doc.title doc.content]⟩
  | .error e =>
      ⟨st, [⟨"Error updating document", e, some "destructive"⟩], [],
        [RemoteCall.updateDocumentRow doc.id doc.title doc.content]⟩

/-- deleteDocument (lines 141 to 162): on success the local list is
filtered by id; on failure a destructive toast carries the message. -/
def deleteDocument (st : ManagerState) (docId : String)
    (resp : Except String Unit) : OpResult :=
  match resp with
  | .ok _ =>
      ⟨{ st with documents := st.documents.filter (fun d => d.id != docId) },
        [⟨"Document deleted", "Your document has been deleted.", none⟩], [],
        [RemoteCall.deleteDocumentRow docId]⟩
  | .error e =>
      ⟨st, [⟨"Error deleting document", e, some "destructive"⟩], [],
        [RemoteCall.deleteDocumentRow docId]⟩

/-- The email string used in the owner-privileges query (line 173):
user optional chaining on email, with empty string as fallback. -/
def queriedEmail (gu : Option UserView) : String :=
  match gu with
  | some u =>
      match u.email with
      | some e => e
      | none => ""
  | none => ""

/-- Models the owner_privileges select filtered by email equality with
maybeSingle (lines 170 to 174), against a backend table whose rows are
the listed emails: the data field is a row exactly when the email is
present, and no error is produced. -/
def ownerLookup (ownerEmails : List String) (email : String) : InvokeResult Unit :=
  ⟨if email ∈ ownerEmails then some () else none, none⟩

/-- The subscribed test of line 182: optional chaining on the data field,
with a missing field read as false. -/
def subscribedOf (sub : InvokeResult SubCheck) : Bool :=
  match sub.data with
  | some c => c.subscribed
  | none => false

/-- Message of the TypeError thrown on line 205 when the summarize call
returns neither data nor error, caught by the surrounding catch. -/
def nullSummaryReadError : String := "Cannot read properties of null"

/-- Line 165: entering a summarize run marks the document id in flight. -/
def generateSummaryStart (st : ManagerState) (doc : Document) : ManagerState :=
  { st with isSummarizing := some doc.id }

/-- Lines 193 to 216: the ai-summarize invocation and the handling of its
response, the thrown error being caught and toasted, with the finally
block clearing the in-flight marker. -/
def finishSummary (st1 : ManagerState) (doc : Document)
    (callsBefore : List RemoteCall) (sumResp : InvokeResult SummaryData) : OpResult :=
  let calls := callsBefore ++ [RemoteCall.invokeAiSummarize doc.content doc.title]
  match sumResp.error with
  | some e =>
      ⟨{ st1 with isSummarizing := none },
        [⟨"Error generating summary", e, some "destructive"⟩], [], calls⟩
  | none =>
      match sumResp.data with
      | some s =>
          ⟨{ st1 with isSummarizing := none },
            [⟨"AI Summary Generated", s.summary.take 150 ++ "...", some "default"⟩],
            [], calls⟩
      | none =>
          ⟨{ st1 with isSummarizing := none },
            [⟨"Error generating summary", nullSummaryReadError, some "destructive"⟩],
            [], calls⟩

/-- generateSummary (lines 164 to 217): mark the document in flight, read
the caller through getUser, look up owner privileges reading only the data
field, and when no owner row exists consult check-subscription, again only
its data field; an unsubscribed caller gets the upsell toast and the run
aborts; otherwise ai-summarize is invoked and handled by finishSummary.
Every path ends with the finally block clearing the in-flight marker. -/
def generateSummary (st : ManagerState) (doc : Document) (gu : Option UserView)
    (ownerResp : InvokeResult Unit) (subResp : InvokeResult SubCheck)
    (sumResp : InvokeResult SummaryData) : OpResult :=
  let st1 := generateSummaryStart st doc
  let baseCalls := [RemoteCall.getUser, RemoteCall.selectOwnerPrivileges (queriedEmail gu)]
  let isOwner := ownerResp.data.isSome
  if isOwner then
    finishSummary st1 doc baseCalls sumResp
  else
    let calls2 := baseCalls ++ [RemoteCall.invokeCheckSubscription]
    if subscribedOf subResp then
      finishSummary st1 doc calls2 sumResp
    else
      ⟨{ st1 with isSummarizing := none },
        [⟨"AI Summary (Premium Feature)",
          "Upgrade to Premium to access AI-powered document summaries.",
          some "default"⟩], [], calls2⟩

/-- The rendered props of the per-document summarize button
(lines 395 to 406): disabled while that document is in flight or the
document is integration sourced, spinner shown while in flight. -/
structure SummarizeButtonView where
  disabled : Bool
  showsSpinner : Bool
deriving DecidableEq, Repr

/-- Renders the summarize button state for one document card. -/
def summarizeButton (isSummarizing : Option String) (isIntegration : Bool)
    (doc : Document) : SummarizeButtonView :=
  ⟨(isSummarizing == some doc.id) || isIntegration, isSummarizing == some doc.id⟩

/-- The integration items that reach rendering (lines 439 to 440): the
list filtered by the fixed allow-list of integration types. -/
def renderedIntegrations (integrations : List Integration) : List Integration :=
  integrations.filter
    (fun i => ["google_drive", "notion", "github"].contains i.integration_type)

/-- A concrete document used by witnesses and counterexamples. -/
def doc1 : Document := ⟨"d1", "Notes", "Some content", "t1", "u1", "2024-01-01"⟩

/-- A second document sharing the id of doc1 but differing elsewhere. -/
def doc1b : Document := ⟨"d1", "Notes copy", "Other content", "t1", "u1", "2024-01-02"⟩

/-- A concrete baseline component state. -/
def st0 : ManagerState := ⟨[doc1], [], false, none, "Draft", "Body", true, none⟩

/-- A component state whose document list carries two entries sharing one
id, to probe the delete semantics on duplicate identifiers. -/
def stDup : ManagerState := ⟨[doc1, doc1b], [], false, none, "", "", false, none⟩

end DocumentManager

namespace AppContent

/-- The session object delivered by the auth service; the component reads
its user field (src/unnamed/part_000, lines 44 to 62). -/
structure Session where
  user : String
deriving DecidableEq, Repr

/-- The state of the mounted session observer together with the React
bookkeeping the embedding needs: whether the component is still mounted
and how many times the effect cleanup ran subscription.unsubscribe. -/
structure ObserverState where
  mounted : Bool
  session : Option Session
  user : Option String
  isLoading : Bool
  unsubscribeCount : Nat
deriving DecidableEq, Repr

/-- The asynchronous events that can reach the observer after mount: a
callback of the auth state listener, the resolution of the getSession
promise, and the unmount of the component. -/
inductive ObserverEvent where
  | authChange (s : Option Session)
  | getSessionResolve (s : Option Session)
  | unmount
deriving DecidableEq, Repr

/-- The state right after mount: loading, no session, listener
registered, cleanup not yet run. -/
def initState : ObserverState :=
  ⟨true, none, none, true, 0⟩

/-- The setter sequence shared by the listener callback (lines 48 to 50)
and the getSession continuation (lines 56 to 58): setSession, setUser
from optional chaining on the session, setIsLoading false. React applies
a state update only while the component is mounted; on an unmounted
component the setters are no-ops, which the mounted guard encodes. -/
def applyAuthUpdate (st : ObserverState) (s : Option Session) : ObserverState :=
  if st.mounted then
    { st with session := s, user := s.map Session.user, isLoading := false }
  else st

/-- One event of the observer. Unmount runs the effect cleanup (line 61),
which calls subscription.unsubscribe once; React never unmounts twice, and
a stray unmount on an unmounted observer changes nothing. -/
def step (st : ObserverState) (e : ObserverEvent) : ObserverState :=
  match e with
  | .authChange s => applyAuthUpdate st s
  | .getSessionResolve s => applyAuthUpdate st s
  | .unmount =>
      if st.mounted then
        { st with mounted := false, unsubscribeCount := st.unsubscribeCount + 1 }
      else st

/-- Runs a sequence of observer events from a state. -/
def run (st : ObserverState) (es : List ObserverEvent) : ObserverState :=
  es.foldl step st

/-- Once unmounted, every further event leaves the state unchanged. -/
theorem step_of_unmounted (st : ObserverState) (e : ObserverEvent)
    (h : st.mounted = false) : step st e = st := by
  cases e <;> simp [step, applyAuthUpdate, h]

/-- Once unmounted, any tail of events leaves the state unchanged. -/
theorem run_of_unmounted (st : ObserverState) (es : List ObserverEvent)
    (h : st.mounted = false) : run st es = st := by
  induction es with
  | nil => rfl
  | cons e es ih =>
      have hstep : step st e = st := step_of_unmounted st e h
      simp [run, List.foldl_cons, hstep] at ih ⊢
      simpa [run, hstep] using ih

/-- Events other than unmount preserve the mounted flag and the
unsubscribe count. -/
theorem run_preserves_mount (st : ObserverState) (es : List ObserverEvent)
    (h : ObserverEvent.unmount ∉ es) :
    (run st es).mounted = st.mounted ∧
      (run st es).unsubscribeCount = st.unsubscribeCount := by
  induction es generalizing st with
  | nil => exact ⟨rfl, rfl⟩
  | cons e es ih =>
      have he : e ≠ ObserverEvent.unmount := by
        intro hcontra; exact h (hcontra ▸ List.mem_cons_self e es)
      have hes : ObserverEvent.unmount ∉ es := fun hc => h (List.mem_cons_of_mem e hc)
      have hstep : (step st e).mounted = st.mounted ∧
          (step st e).unsubscribeCount = st.unsubscribeCount := by
        cases e with
        | authChange s => constructor <;> simp [step, applyAuthUpdate] <;> split <;> rfl
        | getSessionResolve s => constructor <;> simp [step, applyAuthUpdate] <;> split <;> rfl
        | unmount => exact absurd rfl he
      have := ih (step st e) hes
      simp only [run, List.foldl_cons] at this ⊢
      exact ⟨this.1.trans hstep.1, this.2.trans hstep.2⟩

/-- C2: if the session observer is unmounted before the initial
getSession promise resolves (no getSessionResolve event and no unmount
precedes the unmount), then the run is unchanged by every event after the
unmount, so no state mutation occurs after unmount, and the effect
cleanup ran subscription.unsubscribe exactly once. -/
theorem C2_unmount_no_late_update (pre post : List ObserverEvent)
    (hpre : ObserverEvent.unmount ∉ pre)
    (hgs : ∀ s, ObserverEvent.getSessionResolve s ∉ pre) :
    run initState (pre ++ ObserverEvent.unmount :: post)
        = run initState (pre ++ [ObserverEvent.unmount]) ∧
    (run initState (pre ++ ObserverEvent.unmount :: post)).unsubscribeCount = 1 := by
  have hpm := run_preserves_mount initState pre hpre
  have hm : (run initState pre).mounted = true := hpm.1
  have hc : (run initState pre).unsubscribeCount = 0 := hpm.2
  have hstep : step (run initState pre) ObserverEvent.unmount
      = { run initState pre with
          mounted := false,
          unsubscribeCount := (run initState pre).unsubscribeCount + 1 } := by
    simp [step, hm]
  have hunm : (step (run initState pre) ObserverEvent.unmount).mounted = false := by
    rw [hstep]
  have hsplit1 : run initState (pre ++ ObserverEvent.unmount :: post)
      = run (step (run initState pre) ObserverEvent.unmount) post := by
    simp [run, List.foldl_append]
  have hsplit2 : run initState (pre ++ [ObserverEvent.unmount])
      = step (run initState pre) ObserverEvent.unmount := by
    simp [run, List.foldl_append]
  have hpost := run_of_unmounted (step (run initState pre) ObserverEvent.unmount) post hunm
  refine ⟨by rw [hsplit1, hpost, hsplit2], ?_⟩
  rw [hsplit1, hpost, hstep]
  simp [hc]

/-- Witness for C2 at a concrete trace: the getSession promise resolves
after the unmount and changes nothing, and the unsubscribe count is 1. -/
theorem C2_witness :
    run initState
        ([] ++ ObserverEvent.unmount :: [ObserverEvent.getSessionResolve (some ⟨"u1"⟩)])
        = run initState ([] ++ [ObserverEvent.unmount]) ∧
    (run initState
        ([] ++ ObserverEvent.unmount :: [ObserverEvent.getSessionResolve (some ⟨"u1"⟩)])).unsubscribeCount
        = 1 :=
  C2_unmount_no_late_update [] [ObserverEvent.getSessionResolve (some ⟨"u1"⟩)]
    (by simp) (fun s => by simp)

end AppContent

namespace DocumentManager

/-- Every path through generateSummary ends with the finally block
clearing the in-flight marker. -/
theorem generateSummary_clears_inflight (st : ManagerState) (doc : Document)
    (gu : Option UserView) (own : InvokeResult Unit) (sub : InvokeResult SubCheck)
    (sum : InvokeResult SummaryData) :
    (generateSummary st doc gu own sub sum).state.isSummarizing = none := by
  rcases own with ⟨od, oe⟩
  rcases sum with ⟨sd, se⟩
  cases od <;> cases hsub : subscribedOf sub <;> cases se <;> cases sd <;>
    simp [generateSummary, finishSummary, generateSummaryStart, hsub]

/-- Every run of generateSummary performs the getUser call; the function
holds no guard against an already in-flight run. -/
theorem generateSummary_getUser_called (st : ManagerState) (doc : Document)
    (gu : Option UserView) (own : InvokeResult Unit) (sub : InvokeResult SubCheck)
    (sum : InvokeResult SummaryData) :
    RemoteCall.getUser ∈ (generateSummary st doc gu own sub sum).calls := by
  rcases own with ⟨od, oe⟩
  rcases sum with ⟨sd, se⟩
  cases od <;> cases hsub : subscribedOf sub <;> cases se <;> cases sd <;>
    simp [generateSummary, finishSummary, hsub]

/-- When the owner lookup yields no row, the check-subscription call is
always performed. -/
theorem generateSummary_checkSub_called (st : ManagerState) (doc : Document)
    (gu : Option UserView) (oe : Option String) (sub : InvokeResult SubCheck)
    (sum : InvokeResult SummaryData) :
    RemoteCall.invokeCheckSubscription
      ∈ (generateSummary st doc gu ⟨none, oe⟩ sub sum).calls := by
  rcases sum with ⟨sd, se⟩
  cases hsub : subscribedOf sub <;> cases se <;> cases sd <;>
    simp [generateSummary, finishSummary, hsub]

/-- When the ai-summarize invocation was performed and returned an error,
the catch block toasts that message as a destructive notification. -/
theorem generateSummary_fail_toast (st : ManagerState) (doc : Document)
    (gu : Option UserView) (own : InvokeResult Unit) (sub : InvokeResult SubCheck)
    (sd : Option SummaryData) (e : String)
    (hmem : RemoteCall.invokeAiSummarize doc.content doc.title
      ∈ (generateSummary st doc gu own sub ⟨sd, some e⟩).calls) :
    (⟨"Error generating summary", e, some "destructive"⟩ : Toast)
      ∈ (generateSummary st doc gu own sub ⟨sd, some e⟩).toasts := by
  rcases own with ⟨od, oe⟩
  cases od <;> cases hsub : subscribedOf sub <;>
    simp [generateSummary, finishSummary, hsub] at hmem ⊢

end DocumentManager

namespace DocumentManager

/-- C1: when the caller email is not present in the owner-privileges set
and the check-subscription call reports not subscribed, generateSummary
performs exactly the getUser, owner-privileges and check-subscription
calls, never the ai-summarize invocation, emits exactly the upsell toast,
and aborts leaving the state unchanged apart from clearing the in-flight
marker. -/
theorem C1_unsubscribed_never_invokes_summarize (st : ManagerState) (doc : Document)
    (gu : Option UserView) (ownerEmails : List String)
    (sub : InvokeResult SubCheck) (sum : InvokeResult SummaryData)
    (h1 : queriedEmail gu ∉ ownerEmails)
    (h2 : sub.data = some ⟨false⟩) :
    (generateSummary st doc gu (ownerLookup ownerEmails (queriedEmail gu)) sub sum).calls
      = [RemoteCall.getUser, RemoteCall.selectOwnerPrivileges (queriedEmail gu),
         RemoteCall.invokeCheckSubscription] ∧
    (generateSummary st doc gu (ownerLookup ownerEmails (queriedEmail gu)) sub sum).toasts
      = [⟨"AI Summary (Premium Feature)",
          "Upgrade to Premium to access AI-powered document summaries.",
          some "default"⟩] ∧
    (generateSummary st doc gu (ownerLookup ownerEmails (queriedEmail gu)) sub sum).state
      = { st with isSummarizing := none } := by
  refine ⟨?_, ?_, ?_⟩ <;>
    simp [generateSummary, generateSummaryStart, ownerLookup, subscribedOf, h1, h2]

/-- Witness for C1: a concrete non-owner, unsubscribed caller. -/
theorem C1_witness :
    (generateSummary st0 doc1 (some ⟨some "user@example.com"⟩)
        (ownerLookup ["boss@example.com"] (queriedEmail (some ⟨some "user@example.com"⟩)))
        ⟨some ⟨false⟩, none⟩ ⟨none, none⟩).calls
      = [RemoteCall.getUser,
         RemoteCall.selectOwnerPrivileges (queriedEmail (some ⟨some "user@example.com"⟩)),
         RemoteCall.invokeCheckSubscription] ∧
    (generateSummary st0 doc1 (some ⟨some "user@example.com"⟩)
        (ownerLookup ["boss@example.com"] (queriedEmail (some ⟨some "user@example.com"⟩)))
        ⟨some ⟨false⟩, none⟩ ⟨none, none⟩).toasts
      = [⟨"AI Summary (Premium Feature)",
          "Upgrade to Premium to access AI-powered document summaries.",
          some "default"⟩] ∧
    (generateSummary st0 doc1 (some ⟨some "user@example.com"⟩)
        (ownerLookup ["boss@example.com"] (queriedEmail (some ⟨some "user@example.com"⟩)))
        ⟨some ⟨false⟩, none⟩ ⟨none, none⟩).state
      = { st0 with isSummarizing := none } :=
  C1_unsubscribed_never_invokes_summarize st0 doc1 (some ⟨some "user@example.com"⟩)
    ["boss@example.com"] ⟨some ⟨false⟩, none⟩ ⟨none, none⟩ (by decide) rfl

/-- C3 counterexample: while a summarization for document d1 is in
flight, the rendered summarize button for that document does show the
spinner, but the duplicate click is structurally prevented: the button is
rendered disabled, contradicting the claim that a second firing is not
structurally prevented. -/
theorem C3_counterexample_button_disabled :
    (summarizeButton (some "d1") false doc1).showsSpinner = true ∧
    (summarizeButton (some "d1") false doc1).disabled = true := by
  decide

/-- C3 amended: the in-flight indicator is a single document-identifier
slot; while it marks a document, that document gets a spinner and its
summarize button is disabled, so the duplicate click on the same document
cannot fire; generateSummary itself contains no in-flight guard, so an
invocation reaching it while in flight still performs its remote calls. -/
theorem C3_spinner_and_disabled (st : ManagerState) (doc : Document)
    (gu : Option UserView) (own : InvokeResult Unit) (sub : InvokeResult SubCheck)
    (sum : InvokeResult SummaryData)
    (h : st.isSummarizing = some doc.id) :
    (summarizeButton st.isSummarizing false doc).showsSpinner = true ∧
    (summarizeButton st.isSummarizing false doc).disabled = true ∧
    RemoteCall.getUser ∈ (generateSummary st doc gu own sub sum).calls := by
  refine ⟨?_, ?_, generateSummary_getUser_called st doc gu own sub sum⟩ <;>
    simp [summarizeButton, h]

/-- Witness for the amended C3 at a concrete in-flight state. -/
theorem C3_witness :
    (summarizeButton ({ st0 with isSummarizing := some doc1.id }).isSummarizing
        false doc1).showsSpinner = true ∧
    (summarizeButton ({ st0 with isSummarizing := some doc1.id }).isSummarizing
        false doc1).disabled = true ∧
    RemoteCall.getUser ∈ (generateSummary { st0 with isSummarizing := some doc1.id }
        doc1 none ⟨none, none⟩ ⟨none, none⟩ ⟨none, none⟩).calls :=
  C3_spinner_and_disabled { st0 with isSummarizing := some doc1.id } doc1
    none ⟨none, none⟩ ⟨none, none⟩ ⟨none, none⟩ rfl

/-- C7: with an empty or whitespace-only title, createDocument performs
no remote call, emits nothing, and leaves the whole local state,
including the open creation dialog, unchanged. -/
theorem C7_blank_title_no_call (st : ManagerState) (teamId userId : String)
    (resp : Except String Document)
    (h : jsTrim st.newDocTitle = "") :
    createDocument st teamId userId resp = ⟨st, [], [], []⟩ := by
  simp [createDocument, h]

/-- Witness for C7 at a whitespace-only title. -/
theorem C7_witness :
    createDocument { st0 with newDocTitle := "   " } "t1" "u1"
        (Except.ok doc1)
      = ⟨{ st0 with newDocTitle := "   " }, [], [], []⟩ :=
  C7_blank_title_no_call { st0 with newDocTitle := "   " } "t1" "u1"
    (Except.ok doc1) (by decide)

/-- C9: an integration reaches rendering exactly when it is in the loaded
list and its type is in the fixed allow-list. -/
theorem C9_integration_allowlist (l : List Integration) (i : Integration) :
    i ∈ renderedIntegrations l ↔
      i ∈ l ∧ i.integration_type ∈ ["google_drive", "notion", "github"] := by
  simp [renderedIntegrations, List.mem_filter]

/-- Witness for C9: a notion integration is rendered from a concrete
list; a slack integration in the same list is not in the filtered output
by the same equivalence. -/
theorem C9_witness :
    (⟨"i1", "t1", "notion"⟩ : Integration)
      ∈ renderedIntegrations [⟨"i1", "t1", "notion"⟩, ⟨"i2", "t1", "slack"⟩] :=
  (C9_integration_allowlist [⟨"i1", "t1", "notion"⟩, ⟨"i2", "t1", "slack"⟩]
    ⟨"i1", "t1", "notion"⟩).mpr ⟨by decide, by decide⟩

/-- C10: generateSummary reads only the data field of the owner lookup,
so its entire observable outcome is independent of the error field; with
no owner row the control falls through to the check-subscription call,
and the lookup failure produces no notification of its own, the toasts
being exactly those of the error-free run. -/
theorem C10_owner_lookup_error_discarded (st : ManagerState) (doc : Document)
    (gu : Option UserView) (d : Option Unit) (e : String)
    (sub : InvokeResult SubCheck) (sum : InvokeResult SummaryData)
    (hd : d = none) :
    generateSummary st doc gu ⟨d, some e⟩ sub sum
      = generateSummary st doc gu ⟨d, none⟩ sub sum ∧
    RemoteCall.invokeCheckSubscription
      ∈ (generateSummary st doc gu ⟨d, some e⟩ sub sum).calls := by
  subst hd
  exact ⟨rfl, generateSummary_checkSub_called st doc gu (some e) sub sum⟩

/-- Witness for C10 with a concrete failed lookup. -/
theorem C10_witness :
    generateSummary st0 doc1 none ⟨none, some "lookup failed"⟩ ⟨none, none⟩ ⟨none, none⟩
      = generateSummary st0 doc1 none ⟨none, none⟩ ⟨none, none⟩ ⟨none, none⟩ ∧
    RemoteCall.invokeCheckSubscription
      ∈ (generateSummary st0 doc1 none ⟨none, some "lookup failed"⟩
          ⟨none, none⟩ ⟨none, none⟩).calls :=
  C10_owner_lookup_error_discarded st0 doc1 none none "lookup failed"
    ⟨none, none⟩ ⟨none, none⟩ rfl

end DocumentManager

namespace DocumentManager

/-- C4 counterexample: a backend failure of the integrations load is
caught but produces no notification at all; the message goes only to the
console, refuting the claim that every backend failure in the document
manager is converted to a user-visible notification. -/
theorem C4_counterexample_integrations_silent :
    (loadIntegrations st0 "t1" (Except.error "boom")).toasts = [] ∧
    (loadIntegrations st0 "t1" (Except.error "boom")).consoleErrors
      = ["Error loading integrations: boom"] := by
  decide

/-- C4 amended: backend failures of the documents load, create, update,
delete and the ai-summarize invocation are each caught and converted to a
destructive toast carrying the underlying message, and the summarize run
still ends idle; the integrations load failure is caught but only logged
to the console, with no notification. -/
theorem C4_failures_caught_and_toasted (st : ManagerState) (teamId userId : String)
    (e : String) (doc : Document) (docId : String) (gu : Option UserView)
    (own : InvokeResult Unit) (sub : InvokeResult SubCheck)
    (hteam : ¬ teamId = "") (htitle : ¬ jsTrim st.newDocTitle = "") :
    (loadDocuments st teamId (Except.error e)).toasts
      = [⟨"Error loading documents", e, some "destructive"⟩] ∧
    (loadIntegrations st teamId (Except.error e)).toasts = [] ∧
    (loadIntegrations st teamId (Except.error e)).consoleErrors
      = ["Error loading integrations: " ++ e] ∧
    (createDocument st teamId userId (Except.error e)).toasts
      = [⟨"Error creating document", e, some "destructive"⟩] ∧
    (updateDocument st doc (Except.error e)).toasts
      = [⟨"Error updating document", e, some "destructive"⟩] ∧
    (deleteDocument st docId (Except.error e)).toasts
      = [⟨"Error deleting document", e, some "destructive"⟩] ∧
    (generateSummary st doc gu own sub ⟨none, some e⟩).state.isSummarizing = none ∧
    (RemoteCall.invokeAiSummarize doc.content doc.title
        ∈ (generateSummary st doc gu own sub ⟨none, some e⟩).calls →
      (⟨"Error generating summary", e, some "destructive"⟩ : Toast)
        ∈ (generateSummary st doc gu own sub ⟨none, some e⟩).toasts) := by
  refine ⟨?_, ?_, ?_, ?_, ?_, ?_,
    generateSummary_clears_inflight st doc gu own sub ⟨none, some e⟩,
    fun hm => generateSummary_fail_toast st doc gu own sub none e hm⟩ <;>
    simp [loadDocuments, loadIntegrations, createDocument, updateDocument,
      deleteDocument, hteam, htitle]

/-- Witness for the amended C4 at concrete failures of every operation. -/
theorem C4_witness :
    (loadDocuments st0 "t1" (Except.error "boom")).toasts
      = [⟨"Error loading documents", "boom", some "destructive"⟩] ∧
    (loadIntegrations st0 "t1" (Except.error "boom")).toasts = [] ∧
    (loadIntegrations st0 "t1" (Except.error "boom")).consoleErrors
      = ["Error loading integrations: boom"] ∧
    (createDocument st0 "t1" "u1" (Except.error "boom")).toasts
      = [⟨"Error creating document", "boom", some "destructive"⟩] ∧
    (updateDocument st0 doc1 (Except.error "boom")).toasts
      = [⟨"Error updating document", "boom", some "destructive"⟩] ∧
    (deleteDocument st0 "d1" (Except.error "boom")).toasts
      = [⟨"Error deleting document", "boom", some "destructive"⟩] ∧
    (generateSummary st0 doc1 none ⟨some (), none⟩ ⟨none, none⟩
        ⟨none, some "boom"⟩).state.isSummarizing = none ∧
    (⟨"Error generating summary", "boom", some "destructive"⟩ : Toast)
      ∈ (generateSummary st0 doc1 none ⟨some (), none⟩ ⟨none, none⟩
          ⟨none, some "boom"⟩).toasts := by
  have h := C4_failures_caught_and_toasted st0 "t1" "u1" "boom" doc1 "d1" none
    ⟨some (), none⟩ ⟨none, none⟩ (by decide) (by decide)
  exact ⟨h.1, h.2.1, h.2.2.1, h.2.2.2.1, h.2.2.2.2.1, h.2.2.2.2.2.1,
    h.2.2.2.2.2.2.1, h.2.2.2.2.2.2.2 (by decide)⟩

/-- C5 counterexample: on a list carrying two entries with the same
identifier, a successful delete removes both, not exactly one. -/
theorem C5_counterexample_duplicate_ids :
    stDup.documents.countP (fun d => d.id == "d1") = 2 ∧
    (deleteDocument stDup "d1" (Except.ok ())).state.documents = [] := by
  decide

/-- C5 amended: a successful delete removes every entry matching the
identifier, hence exactly one when the identifier occurs exactly once;
repeating the delete for the already-removed identifier leaves the local
list unchanged whatever the second response, and an error response leaves
the state untouched apart from the error notification. -/
theorem C5_delete_removes_all_matching (st : ManagerState) (docId : String)
    (resp2 : Except String Unit) (e : String) :
    (deleteDocument st docId (Except.ok ())).state.documents.countP
        (fun d => d.id == docId) = 0 ∧
    (deleteDocument st docId (Except.ok ())).state.documents.length
        + st.documents.countP (fun d => d.id == docId) = st.documents.length ∧
    (deleteDocument (deleteDocument st docId (Except.ok ())).state docId
        resp2).state.documents
      = (deleteDocument st docId (Except.ok ())).state.documents ∧
    (deleteDocument st docId (Except.error e)).state = st ∧
    (deleteDocument st docId (Except.error e)).toasts
      = [⟨"Error deleting document", e, some "destructive"⟩] := by
  refine ⟨?_, ?_, ?_, rfl, rfl⟩
  · simp only [deleteDocument]
    rw [List.countP_eq_zero]
    intro a ha
    have h2 := (List.mem_filter.mp ha).2
    simp only [bne_iff_ne, ne_eq] at h2
    simp [h2]
  · simp only [deleteDocument]
    have hlen : (st.documents.filter (fun d => d.id != docId)).length
        = st.documents.countP (fun d => d.id != docId) :=
      (List.countP_eq_length_filter _ _).symm
    have hsame : st.documents.countP (fun d => d.id != docId)
        = st.documents.countP (fun d => !(d.id == docId)) := rfl
    have hsplit : st.documents.length
        = st.documents.countP (fun d => d.id == docId)
          + st.documents.countP (fun d => !(d.id == docId)) := by
      simpa using st.documents.length_eq_countP_add_countP (fun d => d.id == docId)
    rw [hlen, hsame]
    omega
  · cases resp2 with
    | ok u => simp [deleteDocument, List.filter_filter]
    | error e2 => simp [deleteDocument]

/-- C6: a successful update preserves the length of the list and maps
each position to the updated record exactly when its identifier matches,
leaving every other entry the very same element. -/
theorem C6_update_replaces_only_matching (st : ManagerState) (doc : Document)
    (i : Nat) (h1 : i < st.documents.length)
    (h2 : i < (updateDocument st doc (Except.ok ())).state.documents.length) :
    (updateDocument st doc (Except.ok ())).state.documents.length
      = st.documents.length ∧
    (updateDocument st doc (Except.ok ())).state.documents.get ⟨i, h2⟩
      = (if (st.documents.get ⟨i, h1⟩).id = doc.id then doc
         else st.documents.get ⟨i, h1⟩) := by
  refine ⟨by simp [updateDocument], ?_⟩
  simp [updateDocument, List.get_eq_getElem, List.getElem_map]

/-- Witness for C6 at a concrete update of the only entry. -/
theorem C6_witness :
    (updateDocument st0 doc1b (Except.ok ())).state.documents.length
      = st0.documents.length ∧
    (updateDocument st0 doc1b (Except.ok ())).state.documents.get
        ⟨0, by simp [updateDocument, st0]⟩
      = (if (st0.documents.get ⟨0, by simp [st0]⟩).id = doc1b.id then doc1b
         else st0.documents.get ⟨0, by simp [st0]⟩) :=
  C6_update_replaces_only_matching st0 doc1b 0 (by simp [st0])
    (by simp [updateDocument, st0])

/-- C8 counterexample: a completed summarize run in which two remote
steps failed, the owner-privileges lookup and the check-subscription
call, each returning the error message network down. Neither failure
surfaces as a notification with that message: the destructuring on lines
170 and 180 discards the error fields, the run takes the upsell branch,
and the only toast is the upsell notification, refuting the claim that a
failure at any remote step surfaces with its underlying message. -/
theorem C8_counterexample_discarded_step_failure :
    (generateSummary st0 doc1 none ⟨none, some "network down"⟩
        ⟨none, some "network down"⟩ ⟨none, none⟩).toasts
      = [⟨"AI Summary (Premium Feature)",
          "Upgrade to Premium to access AI-powered document summaries.",
          some "default"⟩] ∧
    (⟨"Error generating summary", "network down", some "destructive"⟩ : Toast)
      ∉ (generateSummary st0 doc1 none ⟨none, some "network down"⟩
          ⟨none, some "network down"⟩ ⟨none, none⟩).toasts := by
  decide

/-- C8 amended: the per-document summarize run starts by marking that
document in flight, every completion path ends with the marker cleared
back to idle, and when the performed ai-summarize invocation failed the
caught error is surfaced as a destructive notification carrying its
message; ai-summarize is the only remote step whose error is thrown into
the catch: failures of the owner-privileges lookup and of the
check-subscription call are discarded by destructuring, and such a run
emits exactly the upsell notification, never their messages. -/
theorem C8_summarize_state_machine (st : ManagerState) (doc : Document)
    (gu : Option UserView) (own : InvokeResult Unit) (sub : InvokeResult SubCheck)
    (sum : InvokeResult SummaryData) (e : String) (oe se2 : Option String) :
    (generateSummaryStart st doc).isSummarizing = some doc.id ∧
    (generateSummary st doc gu own sub sum).state.isSummarizing = none ∧
    (sum.error = some e →
      RemoteCall.invokeAiSummarize doc.content doc.title
        ∈ (generateSummary st doc gu own sub sum).calls →
      (⟨"Error generating summary", e, some "destructive"⟩ : Toast)
        ∈ (generateSummary st doc gu own sub sum).toasts) ∧
    (generateSummary st doc gu ⟨none, oe⟩ ⟨none, se2⟩ sum).toasts
      = [⟨"AI Summary (Premium Feature)",
          "Upgrade to Premium to access AI-powered document summaries.",
          some "default"⟩] := by
  refine ⟨rfl, generateSummary_clears_inflight st doc gu own sub sum, ?_, ?_⟩
  · intro he hm
    rcases sum with ⟨sd, se⟩
    subst he
    exact generateSummary_fail_toast st doc gu own sub sd e hm
  · simp [generateSummary, subscribedOf]

/-- Witness for C8 at a concrete failing summarize run of an owner,
together with a run whose owner-lookup and check-subscription steps both
fail and yield only the upsell toast. -/
theorem C8_witness :
    (generateSummaryStart st0 doc1).isSummarizing = some doc1.id ∧
    (generateSummary st0 doc1 none ⟨some (), none⟩ ⟨none, none⟩
        ⟨none, some "boom"⟩).state.isSummarizing = none ∧
    (⟨"Error generating summary", "boom", some "destructive"⟩ : Toast)
      ∈ (generateSummary st0 doc1 none ⟨some (), none⟩ ⟨none, none⟩
          ⟨none, some "boom"⟩).toasts ∧
    (generateSummary st0 doc1 none ⟨none, some "down"⟩ ⟨none, some "down"⟩
        ⟨none, some "boom"⟩).toasts
      = [⟨"AI Summary (Premium Feature)",
          "Upgrade to Premium to access AI-powered document summaries.",
          some "default"⟩] := by
  have h := C8_summarize_state_machine st0 doc1 none ⟨some (), none⟩ ⟨none, none⟩
    ⟨none, some "boom"⟩ "boom" (some "down") (some "down")
  exact ⟨h.1, h.2.1, h.2.2.1 rfl (by decide), h.2.2.2⟩

end DocumentManager
